import Mathlib

/-!
Shallow embedding of the enrichment pipeline of the
EnhancedCompanyIntelligence server (`server/routes.ts`, `server/storage.ts`,
`shared/schema.ts`), together with theorems settling the frozen claims
about it.

Modelling conventions:
* Timestamps are integers (milliseconds since the epoch, or calendar years
  where the source extracts `getFullYear()`).  The host clock, the network
  and the host date parser are explicit parameters of the embedded
  functions — in the source they are ambient (`Date.now()`, `fetch`,
  `new Date(string)`).
* On the code paths embedded here JavaScript numbers stay on small
  integers and exact decimal constants, so `Nat`/`Int`/`ℚ` arithmetic with
  explicit floors reproduces the source's `Math.floor`/`Math.max`/`Math.min`
  computations (the floating-point rounding of each constant is checked
  against the bracketed ranges the values live in).
* Thrown exceptions are embedded as `Except` values; a `try`/`catch` block
  becomes a `match` on the `Except`.
-/

/-! ### EnhancementService (`server/routes.ts` lines 222-322)

The SME-calibrated estimators.  `estimateEmployeeCount` in the source
reads the ambient clock (`new Date().getFullYear()`, line 226) and the
record's `date_of_creation` year; both calendar years are explicit
arguments of the embedding. -/

/-- Sector-specific base employee bracket of `estimateEmployeeCount`
(`routes.ts` lines 230-248): the first matching SIC-code prefix rule wins;
records with no matching code fall back to the default bracket. -/
def sectorBaseEmployees (companyAge : Int) (sicCodes : List String) : Nat :=
  if sicCodes.any (fun code => code.startsWith "43") then
    max 1 (min 4 (if companyAge > 5 then 3 else 2))
  else if sicCodes.any (fun code => code.startsWith "41") then
    max 2 (min 8 (if companyAge > 10 then 6 else 3))
  else if sicCodes.any (fun code => code.startsWith "42") then
    max 5 (min 15 (if companyAge > 15 then 12 else 7))
  else if sicCodes.any (fun code => code.startsWith "81") then
    max 1 (min 3 (if companyAge > 3 then 2 else 1))
  else
    max 1 (min 5 (if companyAge > 8 then 4 else 2))

/-- `EnhancementService.estimateEmployeeCount` (`routes.ts` lines 223-257).
The age-growth steps `Math.floor(base * 1.5)`, `* 1.3`, `* 1.1` are
embedded as exact rational floors (`* 3 / 2`, `* 13 / 10`, `* 11 / 10` in
`Nat`); for every base value the bracket rules can produce (all ≤ 15) the
double-precision product rounds to the same floor. -/
def estimateEmployeeCount (currentYear creationYear : Int)
    (sicCodes : List String) : Nat :=
  let companyAge := currentYear - creationYear
  let baseEmployees := sectorBaseEmployees companyAge sicCodes
  let grown :=
    if companyAge > 20 then baseEmployees * 3 / 2
    else if companyAge > 10 then baseEmployees * 13 / 10
    else if companyAge > 5 then baseEmployees * 11 / 10
    else baseEmployees
  max 1 (min grown 12)

/-- Sector-specific per-employee revenue rate of `estimateRevenue`
(`routes.ts` lines 261-276). -/
def revenuePerEmployee (sicCodes : List String) : Nat :=
  if sicCodes.any (fun code => code.startsWith "43") then 48000
  else if sicCodes.any (fun code => code.startsWith "41") then 62000
  else if sicCodes.any (fun code => code.startsWith "42") then 75000
  else if sicCodes.any (fun code => code.startsWith "81") then 35000
  else 55000

/-- Team-size efficiency discount of `estimateRevenue`
(`routes.ts` lines 279-282): 0.75 / 0.85 / 0.95 / 1.0 as exact rationals. -/
def efficiencyFactor (employeeCount : Nat) : ℚ :=
  if employeeCount ≤ 2 then 3 / 4
  else if employeeCount ≤ 5 then 17 / 20
  else if employeeCount ≤ 10 then 19 / 20
  else 1

/-- `EnhancementService.estimateRevenue` (`routes.ts` lines 259-286).
The `location` argument is accepted (source default `'UK'`) and, as in the
source, unused. -/
def estimateRevenue (employeeCount : Nat) (sicCodes : List String)
    (location : String) : Int :=
  ⌊(employeeCount : ℚ) * revenuePerEmployee sicCodes
      * efficiencyFactor employeeCount⌋

/-- Sector-specific valuation revenue multiple of `estimateValuation`
(`routes.ts` lines 290-305): 0.6 / 0.9 / 1.2 / 0.5, default 0.8. -/
def sectorRevenueMultiple (sicCodes : List String) : ℚ :=
  if sicCodes.any (fun code => code.startsWith "43") then 3 / 5
  else if sicCodes.any (fun code => code.startsWith "41") then 9 / 10
  else if sicCodes.any (fun code => code.startsWith "42") then 6 / 5
  else if sicCodes.any (fun code => code.startsWith "81") then 1 / 2
  else 4 / 5

/-- Age-based maturity adjustment of `estimateValuation`
(`routes.ts` lines 308-312): 1.15 / 1.08 / 1.02 / 0.85, default 1.0. -/
def maturityBonus (companyAge : Int) : ℚ :=
  if companyAge > 15 then 23 / 20
  else if companyAge > 8 then 27 / 25
  else if companyAge > 3 then 51 / 50
  else if companyAge < 2 then 17 / 20
  else 1

/-- Small-team liquidity discount of `estimateValuation`
(`routes.ts` lines 315-317): 0.75 / 0.85, default 0.9. -/
def liquidityDiscount (employeeCount : Nat) : ℚ :=
  if employeeCount ≤ 2 then 3 / 4
  else if employeeCount ≤ 5 then 17 / 20
  else 9 / 10

/-- `EnhancementService.estimateValuation` (`routes.ts` lines 288-321). -/
def estimateValuation (revenue : Int) (employeeCount : Nat)
    (sicCodes : List String) (companyAge : Int) : Int :=
  ⌊(revenue : ℚ) * sectorRevenueMultiple sicCodes * maturityBonus companyAge
      * liquidityDiscount employeeCount⌋

/-! ### Bulk-item identifier resolution (`server/routes.ts` lines 670-709)

The per-item resolution step of `processBulkCompanies`: an 8-digit
identifier routes directly to the detail fetch; any other identifier is
searched, with a suffix-variation fallback when the direct search is
empty.  The external search endpoint is an explicit oracle
`search : String → List SearchResult`; the embedding also records the
ordered list of search queries issued. -/

/-- One item of the `/search/companies` response, as consumed by the
best-match selection (`routes.ts` lines 698-704). -/
structure SearchResult where
  title : String
  company_number : String
deriving DecidableEq

/-- Test for the source's `^\d{8}$` pattern (`routes.ts` line 674): exactly
eight characters, all decimal digits. -/
def matchesEightDigits (s : String) : Bool :=
  s.length == 8 && s.data.all Char.isDigit

/-- Replacement `/\s+/g → ' '` (`routes.ts` line 687): each maximal run of
whitespace characters collapses to a single space.  The flag records
whether the previous character was whitespace.  `Char.isWhitespace` stands
in for the JavaScript `\s` class (same on ASCII input). -/
def collapseWsAux : Bool → List Char → List Char
  | _, [] => []
  | prevWs, c :: rest =>
    if c.isWhitespace then
      if prevWs then collapseWsAux true rest
      else ' ' :: collapseWsAux true rest
    else c :: collapseWsAux false rest

/-- JavaScript `String.prototype.trim`: drop leading and trailing
whitespace. -/
def trimWs (l : List Char) : List Char :=
  ((l.dropWhile Char.isWhitespace).reverse.dropWhile Char.isWhitespace).reverse

/-- The whitespace-normalized variation
`companyQuery.replace(/\s+/g, ' ').trim()` (`routes.ts` line 687). -/
def normalizeWhitespace (s : String) : String :=
  ⟨trimWs (collapseWsAux false s.data)⟩

/-- The fallback search variations, in source order
(`routes.ts` lines 683-688). -/
def searchVariations (companyQuery : String) : List String :=
  [companyQuery ++ " LIMITED",
    companyQuery ++ " LTD",
    companyQuery ++ " SERVICES",
    normalizeWhitespace companyQuery]

/-- The variation loop (`routes.ts` lines 690-694): issue each variation's
search in order, stopping at the first non-empty result set.  Returns the
queries issued and the final result set (empty when every search was
empty, as in the source where `searchResults` then holds the last empty
response). -/
def searchVariationLoop (search : String → List SearchResult) :
    List String → List String × List SearchResult
  | [] => ([], [])
  | v :: vs =>
    let r := search v
    if r.length > 0 then ([v], r)
    else
      let p := searchVariationLoop search vs
      (v :: p.1, p.2)

/-- JavaScript `String.prototype.includes` on the embedded strings:
contiguous-substring test. -/
def strIncludes (s sub : String) : Bool :=
  decide (sub.data <:+: s.data)

/-- Best-match selection among search results (`routes.ts` lines 698-702):
the first result whose title is a case-insensitive substring match (in
either direction) with the query, defaulting to the first result. -/
def bestMatch (companyQuery : String) (searchResults : List SearchResult) :
    Option SearchResult :=
  (searchResults.find? (fun result =>
      let resultName := result.title.toLower
      let queryName := companyQuery.toLower
      strIncludes resultName queryName || strIncludes queryName resultName)).orElse
    (fun _ => searchResults.head?)

/-- The per-item not-found error message (`routes.ts` line 707). -/
def notFoundMessage (companyQuery : String) : String :=
  "Company \"" ++ companyQuery ++ "\" not found in Companies House registry. This may be a sole trader, partnership, or inactive business not required to register."

/-- Resolution outcome for one bulk item: the ordered search queries issued
and either the company number handed to the detail fetch or the thrown
not-found error. -/
structure ResolveResult where
  searchTrace : List String
  outcome : Except String String
deriving Repr

/-- The identifier-resolution step of one `processBulkCompanies` iteration
(`routes.ts` lines 670-709), instrumented with the list of search queries
issued. -/
def resolveBulkItem (search : String → List SearchResult)
    (companyQuery : String) : ResolveResult :=
  if matchesEightDigits companyQuery then
    ⟨[], Except.ok companyQuery⟩
  else
    let firstResults := search companyQuery
    let p :=
      if firstResults.length == 0 then
        let q := searchVariationLoop search (searchVariations companyQuery)
        (companyQuery :: q.1, q.2)
      else ([companyQuery], firstResults)
    if p.2.length > 0 then
      match bestMatch companyQuery p.2 with
      | some m => ⟨p.1, Except.ok m.company_number⟩
      | none => ⟨p.1, Except.error (notFoundMessage companyQuery)⟩
    else
      ⟨p.1, Except.error (notFoundMessage companyQuery)⟩

/-- Search-trace as the specification describes it (spec-side definition
for the refinement claim C7): an 8-digit identifier issues no search; any
other identifier is searched as-is; on zero results the variations
`q ++ " LIMITED"`, `q ++ " LTD"`, `q ++ " SERVICES"` and the
whitespace-normalized query are searched in exactly that order, stopping
at the first non-empty result set. -/
def specSearchTrace (search : String → List SearchResult)
    (companyQuery : String) : List String :=
  if matchesEightDigits companyQuery then []
  else if search companyQuery ≠ [] then [companyQuery]
  else
    let vs := searchVariations companyQuery
    companyQuery ::
      (vs.takeWhile (fun v => (search v).isEmpty)
        ++ (vs.dropWhile (fun v => (search v).isEmpty)).take 1)

/-! ### Processing jobs and the bulk driver
(`server/storage.ts` = `src/unnamed/part_000` lines 131-169,
`shared/schema.ts` lines 40-62, `server/routes.ts` lines 484-532 and
656-777)

The storage clock (`new Date()` inside the storage methods) and the
driver's clock are fixed at one reading `now`; none of the claims depends
on intermediate clock readings.  The body of one bulk-loop iteration
(resolve, enrich, persist — `routes.ts` lines 671-752) is abstracted by an
oracle `outcome : String → Except String String`: `Except.ok` carries the
saved company's number, `Except.error` the message of the exception thrown
in the `try` block. -/

/-- One entry of a bulk job's error log (`routes.ts` lines 756-759). -/
structure BulkError where
  company : String
  error : String
deriving Repr

/-- The persisted processing-job record (`shared/schema.ts` lines 40-62),
restricted to the fields the bulk pipeline reads or writes. -/
structure ProcessingJob where
  jobType : String
  status : String
  totalItems : Nat
  processedItems : Nat
  failedItems : Nat
  results : Option (List String)
  errorLog : Option (List BulkError)
  estimatedDuration : Option Int
  actualDuration : Option Int
  createdAt : Int
  updatedAt : Int
  completedAt : Option Int

/-- A partial update as passed to `storage.updateProcessingJob`; an absent
field keeps the job's value (JavaScript object spread). -/
structure JobUpdates where
  status : Option String := none
  processedItems : Option Nat := none
  failedItems : Option Nat := none
  results : Option (List String) := none
  errorLog : Option (List BulkError) := none
  estimatedDuration : Option Int := none
  actualDuration : Option Int := none

/-- `MemStorage.createProcessingJob` (`storage.ts` lines 131-152) applied
to the bulk endpoint's insert `{jobType: "bulk", totalItems:
companies.length, options}` (`routes.ts` lines 497-501): a fresh job in
state `pending` with zero counters.  The source's
`insertJob.totalItems || 1` maps a falsy 0 to 1. -/
def createProcessingJob (now : Int) (totalItems : Nat) : ProcessingJob :=
  { jobType := "bulk"
    status := "pending"
    totalItems := if totalItems = 0 then 1 else totalItems
    processedItems := 0
    failedItems := 0
    results := none
    errorLog := none
    estimatedDuration := none
    actualDuration := none
    createdAt := now
    updatedAt := now
    completedAt := none }

/-- `MemStorage.updateProcessingJob` (`storage.ts` lines 158-169): spread
the updates over the job, refresh `updatedAt`, and set `completedAt` to
the current clock whenever the update carries a terminal status. -/
def updateProcessingJob (now : Int) (job : ProcessingJob)
    (updates : JobUpdates) : ProcessingJob :=
  let updatedJob : ProcessingJob :=
    { job with
        status := updates.status.getD job.status
        processedItems := updates.processedItems.getD job.processedItems
        failedItems := updates.failedItems.getD job.failedItems
        results :=
          match updates.results with
          | some r => some r
          | none => job.results
        errorLog :=
          match updates.errorLog with
          | some e => some e
          | none => job.errorLog
        estimatedDuration :=
          match updates.estimatedDuration with
          | some d => some d
          | none => job.estimatedDuration
        actualDuration :=
          match updates.actualDuration with
          | some d => some d
          | none => job.actualDuration
        updatedAt := now }
  if updates.status = some "completed" ∨ updates.status = some "failed" then
    { updatedJob with completedAt := some now }
  else updatedJob

/-- Running state of one `processBulkCompanies` call: the job's current
persisted record, every record persisted so far (in order), the two local
counters and the local `results`/`errors` accumulators
(`routes.ts` lines 658-662). -/
structure BulkRun where
  job : ProcessingJob
  persisted : List ProcessingJob
  processedCount : Nat
  failedCount : Nat
  results : List String
  errors : List BulkError

/-- One iteration of the bulk loop (`routes.ts` lines 670-767): on success
append the saved record and increment `processedCount`; on the thrown
error increment `failedCount` and append one error entry carrying the
item's identifier and the message; either way persist a progress update
with the current counters. -/
def bulkStep (now : Int) (outcome : String → Except String String)
    (st : BulkRun) (companyQuery : String) : BulkRun :=
  let st₂ :=
    match outcome companyQuery with
    | Except.ok savedCompany =>
        { st with
            results := st.results ++ [savedCompany]
            processedCount := st.processedCount + 1 }
    | Except.error msg =>
        { st with
            failedCount := st.failedCount + 1
            errors := st.errors ++ [(⟨companyQuery, msg⟩ : BulkError)] }
  let j := updateProcessingJob now st₂.job
    { processedItems := some st₂.processedCount
      failedItems := some st₂.failedCount }
  { st₂ with job := j, persisted := st₂.persisted ++ [j] }

/-- `processBulkCompanies` (`routes.ts` lines 656-777): mark the job
`processing`, fold the loop over the identifier list, then persist the
terminal update — status `completed` when `processedCount > 0`, else
`failed`, with the accumulated results and error log.  With the clock
fixed at `now`, the source's `Math.floor((Date.now() - startTime) / 1000)`
is `(now - now) / 1000`. -/
def processBulkCompanies (now : Int) (outcome : String → Except String String)
    (job0 : ProcessingJob) (companies : List String) : BulkRun :=
  let j1 := updateProcessingJob now job0
    { status := some "processing"
      processedItems := some 0
      estimatedDuration := some (companies.length * 2) }
  let looped := companies.foldl (bulkStep now outcome)
    (⟨j1, [j1], 0, 0, [], []⟩ : BulkRun)
  let final := updateProcessingJob now looped.job
    { status := some (if looped.processedCount > 0 then "completed" else "failed")
      results := some looped.results
      errorLog := some looped.errors
      actualDuration := some ((now - now) / 1000) }
  { looped with job := final, persisted := looped.persisted ++ [final] }

/-- The full bulk-endpoint run (`routes.ts` lines 497-518): create the job
in state `pending`, then drive it to a terminal state. -/
def bulkJobRun (now : Int) (outcome : String → Except String String)
    (companies : List String) : BulkRun :=
  processBulkCompanies now outcome
    (createProcessingJob now companies.length) companies

/-- The error entries a run's failed items contribute, in input order: one
entry per failed item, carrying its identifier and the error message. -/
def expectedErrors (outcome : String → Except String String)
    (companies : List String) : List BulkError :=
  companies.filterMap (fun q =>
    match outcome q with
    | Except.ok _ => none
    | Except.error e => some ⟨q, e⟩)

/-! ### CompaniesHouseService: caching detail fetch and validation
(`server/routes.ts` lines 8-156)

The network is an oracle `net : String → RawCompany` giving the parsed
JSON body of a successful response for an endpoint (the cache claims'
scenarios are about successful fetches; the API-key guard, rate-limit
wait and 429/404 branches do not change any value they mention).  The
host date parser is an oracle `parseDate : String → Option Int` standing
for `new Date(s).getTime()`, with `none` for an Invalid Date (whose
`getTime()` is `NaN`). -/

/-- The raw registry payload fields `validateAndEnhanceCompanyData`
reads.  String fields are `Option`: `none` is an absent field. -/
structure RawCompany where
  company_name : Option String
  company_number : Option String
  company_status : Option String
  date_of_creation : Option String
deriving DecidableEq, Repr

/-- The record `getCompanyDetails` returns: the raw payload plus the
annotations `validateAndEnhanceCompanyData` writes (`routes.ts` lines
104-128).  `age_years` is `none` when `date_of_creation` is absent and
`some none` when the date is present but unparseable (the source then
computes `NaN` — an indeterminate value, modelled by the inner `none`). -/
structure EnhancedCompany where
  raw : RawCompany
  data_retrieved_at : Int
  status_interpretation : String
  age_years : Option (Option ℚ)
deriving DecidableEq, Repr

/-- JavaScript truthiness test `!data[field]` on an optional string field:
an absent field and the empty string are falsy alike. -/
def falsyStr : Option String → Bool
  | none => true
  | some s => s == ""

/-- The status interpretation table (`routes.ts` lines 108-116): known
status codes map to a description, unknown codes to "Unknown status". -/
def statusInterpretation (companyStatus : String) : String :=
  if companyStatus = "active" then "Company is actively trading"
  else if companyStatus = "dissolved" then "Company has been dissolved"
  else if companyStatus = "liquidation" then "Company is in liquidation"
  else if companyStatus = "receivership" then "Company is in receivership"
  else if companyStatus = "converted-closed" then
    "Company has been converted and closed"
  else if companyStatus = "insolvency-proceedings" then
    "Company is undergoing insolvency proceedings"
  else "Unknown status"

/-- Milliseconds in a Julian year, the divisor of the age computation
(`routes.ts` line 123): 365.25 × 24 × 60 × 60 × 1000. -/
def msPerYear : ℚ := 31557600000

/-- `validateAndEnhanceCompanyData` (`routes.ts` lines 95-131).  The
mandatory-field loop tests truthiness in the order `company_name`,
`company_number`, `company_status` and throws on the first falsy one.
The age computation never throws: `new Date(bad)` yields an Invalid Date
whose `getTime()` is `NaN`, so `age_years` becomes indeterminate (the
source's `catch` branch, which would set `null`, is unreachable and
equally indeterminate). -/
def validateAndEnhanceCompanyData (parseDate : String → Option Int)
    (now : Int) (data : RawCompany) : Except String EnhancedCompany :=
  if falsyStr data.company_name then
    Except.error "Missing required field: company_name"
  else if falsyStr data.company_number then
    Except.error "Missing required field: company_number"
  else if falsyStr data.company_status then
    Except.error "Missing required field: company_status"
  else
    Except.ok
      { raw := data
        data_retrieved_at := now
        status_interpretation :=
          statusInterpretation (data.company_status.getD "")
        age_years :=
          match data.date_of_creation with
          | none => none
          | some s =>
            some (match parseDate s with
              | some t => some (((now : ℚ) - (t : ℚ)) / msPerYear)
              | none => none) }

/-- Client-side state of `CompaniesHouseService` as the cache claims
observe it: the cache entries (key, fetch timestamp, payload) in insertion
order, plus a counter of external network calls.  `lastRequestTime` only
delays calls and never changes a returned value, so it is omitted. -/
structure CHState where
  cache : List (String × Int × RawCompany)
  externalCalls : Nat
deriving DecidableEq, Repr

/-- A fresh service instance (`routes.ts` lines 11-14): empty cache. -/
def initCHState : CHState := ⟨[], 0⟩

/-- Cache expiry window in milliseconds (`routes.ts` line 14). -/
def cacheExpiry : Int := 3600000

/-- `getCacheKey` (`routes.ts` lines 23-26) for a parameterless request:
the endpoint followed by `?` and the empty parameter serialization. -/
def getCacheKey (endpoint : String) : String := endpoint ++ "?"

/-- JavaScript `Map.get` over the association list. -/
def cacheLookup (cache : List (String × Int × RawCompany)) (key : String) :
    Option (Int × RawCompany) :=
  (cache.find? (fun e => e.1 == key)).map Prod.snd

/-- JavaScript `Map.set`: replace in place when the key exists, else
append. -/
def cacheSet (cache : List (String × Int × RawCompany)) (key : String)
    (ts : Int) (data : RawCompany) : List (String × Int × RawCompany) :=
  if (cache.find? (fun e => e.1 == key)).isSome then
    cache.map (fun e => if e.1 == key then (key, ts, data) else e)
  else cache ++ [(key, ts, data)]

/-- `makeRequest` (`routes.ts` lines 34-93) on the success path: a cache
hit younger than the expiry window (`isValidCache`, lines 28-32)
short-circuits the network; otherwise one external call fetches the
payload and caches it at the current clock. -/
def makeRequest (net : String → RawCompany) (now : Int) (st : CHState)
    (endpoint : String) : RawCompany × CHState :=
  let cacheKey := getCacheKey endpoint
  let fetched :=
    let data := net endpoint
    (data,
      (⟨cacheSet st.cache cacheKey now data, st.externalCalls + 1⟩ : CHState))
  match cacheLookup st.cache cacheKey with
  | some (ts, data) =>
    if now - ts < cacheExpiry then (data, st) else fetched
  | none => fetched

/-- `getCompanyDetails` (`routes.ts` lines 148-156): fetch
`/company/{companyNumber}` through the cache, then validate and annotate
the payload.  In the source the cached object itself is annotated in
place; since the annotation overwrites every field it writes, the returned
values agree with this functional model. -/
def getCompanyDetails (net : String → RawCompany)
    (parseDate : String → Option Int) (now : Int) (st : CHState)
    (companyNumber : String) : Except String EnhancedCompany × CHState :=
  let r := makeRequest net now st ("/company/" ++ companyNumber)
  (validateAndEnhanceCompanyData parseDate now r.1, r.2)

/-- Decidable equality of fetch results, used to evaluate the cache
scenarios on concrete inputs. -/
instance {ε α : Type} [DecidableEq ε] [DecidableEq α] :
    DecidableEq (Except ε α) := fun a b =>
  match a, b with
  | Except.ok x, Except.ok y =>
    if h : x = y then Decidable.isTrue (congrArg Except.ok h)
    else Decidable.isFalse (fun hh => h (Except.ok.inj hh))
  | Except.error x, Except.error y =>
    if h : x = y then Decidable.isTrue (congrArg Except.error h)
    else Decidable.isFalse (fun hh => h (Except.error.inj hh))
  | Except.ok _, Except.error _ =>
    Decidable.isFalse (fun hh => Except.noConfusion hh)
  | Except.error _, Except.ok _ =>
    Decidable.isFalse (fun hh => Except.noConfusion hh)

/-! ### Claim theorems (first group) -/

/-- Helper: the queries issued by the variation loop are the all-empty
prefix of the variation list followed by the first variation (if any)
whose search result set is non-empty. -/
theorem searchVariationLoop_trace (search : String → List SearchResult)
    (vs : List String) :
    (searchVariationLoop search vs).1
      = vs.takeWhile (fun v => (search v).isEmpty)
        ++ (vs.dropWhile (fun v => (search v).isEmpty)).take 1 := by
  induction vs with
  | nil => rfl
  | cons v vs ih =>
    rcases hs : search v with _ | ⟨a, l⟩
    · simp [searchVariationLoop, hs, ih]
    · simp [searchVariationLoop, hs]

/-- Helper: the search trace of a non-8-digit item is the direct query
alone when it has results, and the direct query followed by the variation
loop's queries otherwise. -/
theorem resolveBulkItem_searchTrace_eq (search : String → List SearchResult)
    (q : String) (h8 : matchesEightDigits q = false) :
    (resolveBulkItem search q).searchTrace
      = if search q = [] then
          q :: (searchVariationLoop search (searchVariations q)).1
        else [q] := by
  unfold resolveBulkItem
  rw [h8]
  by_cases hq : search q = []
  · rw [if_pos hq]
    simp only [Bool.false_eq_true, if_false, hq, List.length_nil,
      beq_self_eq_true, if_true]
    split <;> first | rfl | (split <;> rfl)
  · rw [if_neg hq]
    have hlen : ((search q).length == 0) = false := by
      simp [List.length_eq_zero, hq]
    simp only [Bool.false_eq_true, if_false, hlen]
    split <;> first | rfl | (split <;> rfl)

/-- C6: for every clock year, incorporation year and list of classification
codes, the SME-calibrated `estimateEmployeeCount` returns an integer in the
interval [1, 12]. -/
theorem estimateEmployeeCount_range (currentYear creationYear : Int)
    (sicCodes : List String) :
    1 ≤ estimateEmployeeCount currentYear creationYear sicCodes ∧
      estimateEmployeeCount currentYear creationYear sicCodes ≤ 12 := by
  unfold estimateEmployeeCount
  refine ⟨Nat.le_max_left _ _, Nat.max_le.mpr ⟨by norm_num, Nat.min_le_right _ _⟩⟩

/-- C4 counterexample: `estimateEmployeeCount` is not independent of the
current clock.  With the same record (incorporated in 2000, no
classification codes), a call when the clock reads year 2005 returns 2
while a call when it reads year 2010 returns 4. -/
theorem estimateEmployeeCount_clock_dependent :
    estimateEmployeeCount 2005 2000 [] ≠ estimateEmployeeCount 2010 2000 [] := by
  decide

/-- C4 (amended): `estimateRevenue` and `estimateValuation` are pure and
deterministic, and `estimateEmployeeCount` is deterministic once the clock
reading is fixed — it depends on the clock year and the incorporation year
only through their difference (the company age). -/
theorem estimators_deterministic_given_clock (y₁ c₁ y₂ c₂ : Int)
    (codes : List String) (e : Nat) (r a : Int) (loc : String)
    (h : y₁ - c₁ = y₂ - c₂) :
    estimateEmployeeCount y₁ c₁ codes = estimateEmployeeCount y₂ c₂ codes ∧
      estimateRevenue e codes loc = estimateRevenue e codes loc ∧
      estimateValuation r e codes a = estimateValuation r e codes a := by
  refine ⟨?_, rfl, rfl⟩
  unfold estimateEmployeeCount
  rw [h]

/-- C4 witness: the amended determinism theorem applied at concrete inputs
(two clock readings five years apart, both ten years after incorporation). -/
theorem estimators_deterministic_given_clock_witness :
    (2010 : Int) - 2000 = 2015 - 2005 ∧
      (estimateEmployeeCount 2010 2000 ["43120"]
          = estimateEmployeeCount 2015 2005 ["43120"] ∧
        estimateRevenue 3 ["43120"] "UK" = estimateRevenue 3 ["43120"] "UK" ∧
        estimateValuation 144000 3 ["43120"] 10
          = estimateValuation 144000 3 ["43120"] 10) :=
  ⟨by decide,
    estimators_deterministic_given_clock 2010 2000 2015 2005 ["43120"] 3
      144000 10 "UK" (by decide)⟩

/-- C7: in bulk processing an 8-digit identifier is resolved directly by
detail fetch with no search call, and any other identifier's search trace
is exactly the spec-described one — the query as-is, then on zero results
the suffix variations and the whitespace-normalized query in order,
stopping at the first non-empty result set. -/
theorem resolveBulkItem_trace_spec (search : String → List SearchResult)
    (q : String) :
    (resolveBulkItem search q).searchTrace = specSearchTrace search q ∧
      (matchesEightDigits q = true →
        resolveBulkItem search q = ⟨[], Except.ok q⟩) := by
  constructor
  · by_cases h8 : matchesEightDigits q = true
    · simp [resolveBulkItem, specSearchTrace, h8]
    · have h8f : matchesEightDigits q = false := by
        simpa using h8
      rw [resolveBulkItem_searchTrace_eq search q h8f]
      by_cases hq : search q = []
      · simp [specSearchTrace, h8f, hq, searchVariationLoop_trace]
      · simp [specSearchTrace, h8f, hq]
  · intro h8
    simp [resolveBulkItem, h8]

/-- C7 witness: the trace theorem applied at the concrete 8-digit
identifier "12345678" against the everywhere-empty search oracle. -/
theorem resolveBulkItem_trace_spec_witness :
    (resolveBulkItem (fun _ => []) "12345678").searchTrace
        = specSearchTrace (fun _ => []) "12345678"
      ∧ (matchesEightDigits "12345678" = true →
          resolveBulkItem (fun _ => []) "12345678"
            = ⟨[], Except.ok "12345678"⟩) :=
  resolveBulkItem_trace_spec (fun _ => []) "12345678"

/-- Helper: a counters-only progress update spreads the counters over the
job, refreshes `updatedAt` and touches neither status nor completion
timestamp. -/
theorem updateProgress_eq (now : Int) (job : ProcessingJob) (p f : Nat) :
    updateProcessingJob now job
        { processedItems := some p, failedItems := some f }
      = { job with
          processedItems := p
          failedItems := f
          updatedAt := now } := by
  simp [updateProcessingJob]

/-- Helper: the initial `processing` update of the bulk driver. -/
theorem updateStart_eq (now : Int) (job : ProcessingJob) (d : Int) :
    updateProcessingJob now job
        { status := some "processing", processedItems := some 0,
          estimatedDuration := some d }
      = { job with
          status := "processing"
          processedItems := 0
          estimatedDuration := some d
          updatedAt := now } := by
  simp [updateProcessingJob]

/-- Helper: a terminal update writes the status, results, error log and
duration, and stamps `completedAt` with the current clock. -/
theorem updateFinish_eq (now : Int) (job : ProcessingJob) (t : String)
    (r : List String) (e : List BulkError) (a : Int)
    (ht : t = "completed" ∨ t = "failed") :
    updateProcessingJob now job
        { status := some t, results := some r, errorLog := some e,
          actualDuration := some a }
      = { job with
          status := t
          results := some r
          errorLog := some e
          actualDuration := some a
          updatedAt := now
          completedAt := some now } := by
  rcases ht with h | h <;> subst h <;> simp [updateProcessingJob]

/-- Helper: the observable effect of one bulk-loop iteration. -/
theorem bulkStep_fields (now : Int) (outcome : String → Except String String)
    (st : BulkRun) (c : String) :
    (bulkStep now outcome st c).job.status = st.job.status ∧
    (bulkStep now outcome st c).job.completedAt = st.job.completedAt ∧
    (bulkStep now outcome st c).job.totalItems = st.job.totalItems ∧
    (bulkStep now outcome st c).job.processedItems
        = (bulkStep now outcome st c).processedCount ∧
    (bulkStep now outcome st c).job.failedItems
        = (bulkStep now outcome st c).failedCount ∧
    (bulkStep now outcome st c).processedCount
        = st.processedCount + (if (outcome c).isOk then 1 else 0) ∧
    (bulkStep now outcome st c).failedCount
        = st.failedCount + (if (outcome c).isOk then 0 else 1) ∧
    (bulkStep now outcome st c).persisted
        = st.persisted ++ [(bulkStep now outcome st c).job] ∧
    (bulkStep now outcome st c).errors
        = st.errors ++ (match outcome c with
            | Except.ok _ => []
            | Except.error e => [⟨c, e⟩]) := by
  rcases ho : outcome c with e | s <;>
    simp [bulkStep, ho, updateProgress_eq, Except.isOk, Except.toBool]

/-- Helper: the loop invariant of the bulk fold.  Running the loop over
`cs` from any state adds the successes to `processedCount`, the failures
to `failedCount`, appends exactly one error entry per failed item (in
order, carrying identifier and message), never changes the job's status,
completion timestamp or total, keeps the persisted counters equal to the
local counters, and persists one record per item whose counters stay
bounded by the items handled so far. -/
theorem bulkLoop_invariant (now : Int)
    (outcome : String → Except String String) (cs : List String) :
    ∀ st : BulkRun,
    (cs.foldl (bulkStep now outcome) st).processedCount
        = st.processedCount + cs.countP (fun q => (outcome q).isOk) ∧
    (cs.foldl (bulkStep now outcome) st).failedCount
        = st.failedCount + cs.countP (fun q => !(outcome q).isOk) ∧
    (cs.foldl (bulkStep now outcome) st).errors
        = st.errors ++ expectedErrors outcome cs ∧
    (cs.foldl (bulkStep now outcome) st).job.status = st.job.status ∧
    (cs.foldl (bulkStep now outcome) st).job.completedAt
        = st.job.completedAt ∧
    (cs.foldl (bulkStep now outcome) st).job.totalItems
        = st.job.totalItems ∧
    (st.job.processedItems = st.processedCount →
      st.job.failedItems = st.failedCount →
      (cs.foldl (bulkStep now outcome) st).job.processedItems
          = (cs.foldl (bulkStep now outcome) st).processedCount ∧
        (cs.foldl (bulkStep now outcome) st).job.failedItems
          = (cs.foldl (bulkStep now outcome) st).failedCount) ∧
    ∃ L, (cs.foldl (bulkStep now outcome) st).persisted
          = st.persisted ++ L ∧
      L.length = cs.length ∧
      ∀ j ∈ L, j.status = st.job.status ∧ j.completedAt = st.job.completedAt ∧
        j.totalItems = st.job.totalItems ∧
        j.processedItems + j.failedItems
          ≤ st.processedCount + st.failedCount + cs.length := by
  induction cs with
  | nil =>
    intro st
    refine ⟨by simp, by simp, by simp [expectedErrors], rfl, rfl, rfl,
      fun hp hf => ⟨hp, hf⟩, [], by simp, rfl, by simp⟩
  | cons c cs ih =>
    intro st
    obtain ⟨hst, hca, hti, hpi, hfi, hpc, hfc, hper, herr⟩ :=
      bulkStep_fields now outcome st c
    obtain ⟨ih1, ih2, ih3, ih4, ih5, ih6, ih7, L, hL, hLlen, hLmem⟩ :=
      ih (bulkStep now outcome st c)
    simp only [List.foldl_cons] at *
    have hsum : (bulkStep now outcome st c).processedCount
        + (bulkStep now outcome st c).failedCount
        = st.processedCount + st.failedCount + 1 := by
      rw [hpc, hfc]; cases (outcome c).isOk <;> simp <;> omega
    refine ⟨?_, ?_, ?_, ih4.trans hst, ih5.trans hca, ih6.trans hti,
      fun _ _ => ih7 hpi hfi, (bulkStep now outcome st c).job :: L, ?_, ?_, ?_⟩
    · rw [ih1, hpc, List.countP_cons]
      cases (outcome c).isOk <;> simp <;> omega
    · rw [ih2, hfc, List.countP_cons]
      cases (outcome c).isOk <;> simp <;> omega
    · rw [ih3, herr]
      rcases ho : outcome c with e | s <;>
        simp [expectedErrors, List.filterMap_cons, ho]
    · rw [hL, hper]; simp
    · simp [hLlen]
    · intro j hj
      rcases List.mem_cons.mp hj with h | h
      · subst h
        exact ⟨hst, hca, hti, by
          rw [hpi, hfi, hsum]; simp only [List.length_cons]; omega⟩
      · obtain ⟨m1, m2, m3, m4⟩ := hLmem j h
        exact ⟨m1.trans hst, m2.trans hca, m3.trans hti,
          by rw [hsum] at m4; simpa [List.length_cons] using
            le_trans m4 (by omega)⟩

/-- Helper: full characterization of one `processBulkCompanies` run from a
freshly created job (zero failed counter, no completion timestamp): the
final job's status, counters, total, error log and completion timestamp,
and the status/completion/counter shape of every state persisted during
the run. -/
theorem processBulk_spec (now : Int)
    (outcome : String → Except String String) (companies : List String)
    (job0 : ProcessingJob) (hf0 : job0.failedItems = 0)
    (hca0 : job0.completedAt = none) :
    (processBulkCompanies now outcome job0 companies).job.status
        = (if 0 < companies.countP (fun q => (outcome q).isOk)
            then "completed" else "failed") ∧
    (processBulkCompanies now outcome job0 companies).job.processedItems
        = companies.countP (fun q => (outcome q).isOk) ∧
    (processBulkCompanies now outcome job0 companies).job.failedItems
        = companies.countP (fun q => !(outcome q).isOk) ∧
    (processBulkCompanies now outcome job0 companies).job.totalItems
        = job0.totalItems ∧
    (processBulkCompanies now outcome job0 companies).job.errorLog
        = some (expectedErrors outcome companies) ∧
    (processBulkCompanies now outcome job0 companies).job.completedAt
        = some now ∧
    ((processBulkCompanies now outcome job0 companies).persisted.map
          ProcessingJob.status)
        = List.replicate (companies.length + 1) "processing"
            ++ [if 0 < companies.countP (fun q => (outcome q).isOk)
                then "completed" else "failed"] ∧
    ((processBulkCompanies now outcome job0 companies).persisted.map
          ProcessingJob.completedAt)
        = List.replicate (companies.length + 1) (none : Option Int)
            ++ [some now] ∧
    ∀ j ∈ (processBulkCompanies now outcome job0 companies).persisted,
      j.processedItems + j.failedItems ≤ companies.length ∧
        j.totalItems = job0.totalItems := by
  have hJp : ({ job0 with
      status := "processing"
      processedItems := 0
      estimatedDuration := some (companies.length * 2)
      updatedAt := now } : ProcessingJob).processedItems = 0 := rfl
  have hJf : ({ job0 with
      status := "processing"
      processedItems := 0
      estimatedDuration := some (companies.length * 2)
      updatedAt := now } : ProcessingJob).failedItems = 0 := hf0
  obtain ⟨h1, h2, h3, h4, h5, h6, h7, L, hL, hLlen, hLmem⟩ :=
    bulkLoop_invariant now outcome companies
      ⟨{ job0 with
          status := "processing"
          processedItems := 0
          estimatedDuration := some (companies.length * 2)
          updatedAt := now },
        [{ job0 with
          status := "processing"
          processedItems := 0
          estimatedDuration := some (companies.length * 2)
          updatedAt := now }], 0, 0, [], []⟩
  obtain ⟨hjp, hjf⟩ := h7 hJp hJf
  simp only [processBulkCompanies, updateStart_eq]
  rw [updateFinish_eq _ _ _ _ _ _ (by
    by_cases h : (companies.foldl (bulkStep now outcome)
        ⟨{ job0 with
            status := "processing"
            processedItems := 0
            estimatedDuration := some (companies.length * 2)
            updatedAt := now },
          [{ job0 with
            status := "processing"
            processedItems := 0
            estimatedDuration := some (companies.length * 2)
            updatedAt := now }], 0, 0, [], []⟩ : BulkRun).processedCount > 0 <;>
      simp [h])]
  refine ⟨?_, ?_, ?_, ?_, ?_, rfl, ?_, ?_, ?_⟩
  · simp only [h1] at *
    simp
  · simpa [h1] using hjp
  · simpa [h2] using hjf
  · exact h6
  · simpa [expectedErrors] using h3
  · simp only [List.map_append, List.map_cons]
    rw [hL]
    simp only [List.map_append, List.map_cons, List.map_nil]
    have hmapL : L.map ProcessingJob.status
        = List.replicate companies.length "processing" := by
      rw [List.eq_replicate_iff]
      refine ⟨by simp [hLlen], ?_⟩
      intro b hb
      obtain ⟨j, hj, hjb⟩ := List.mem_map.mp hb
      rw [← hjb]
      exact (hLmem j hj).1
    rw [hmapL, List.replicate_succ]
    simp [h1]
  · simp only [List.map_append, List.map_cons]
    rw [hL]
    simp only [List.map_append, List.map_cons, List.map_nil]
    have hmapL : L.map ProcessingJob.completedAt
        = List.replicate companies.length (none : Option Int) := by
      rw [List.eq_replicate_iff]
      refine ⟨by simp [hLlen], ?_⟩
      intro b hb
      obtain ⟨j, hj, hjb⟩ := List.mem_map.mp hb
      rw [← hjb]
      exact ((hLmem j hj).2.1).trans hca0
    rw [hmapL, List.replicate_succ]
    simp [hca0]
  · intro j hj
    simp only [List.mem_append] at hj
    rw [hL] at hj
    rcases hj with hj | hj
    · rcases List.mem_append.mp hj with hj | hj
      · rcases List.mem_singleton.mp hj with rfl
        exact ⟨by simp [hf0], rfl⟩
      · obtain ⟨m1, m2, m3, m4⟩ := hLmem j hj
        have m4a : j.processedItems + j.failedItems
            ≤ 0 + 0 + companies.length := m4
        exact ⟨by omega, m3⟩
    · rcases List.mem_singleton.mp hj with rfl
      constructor
      · dsimp only
        rw [hjp, hjf, h1, h2]
        dsimp only
        have hlen : companies.length
            = companies.countP (fun q => (outcome q).isOk)
              + companies.countP (fun q => !(outcome q).isOk) := by
          simpa using
            List.length_eq_countP_add_countP
              (fun q => (outcome q).isOk) companies
        omega
      · exact h6

/-- C1: for every bulk run over a non-empty identifier list, the job's
terminal status is `completed` exactly when at least one item succeeded
and `failed` exactly when zero items succeeded, even when some items
failed. -/
theorem bulkRun_terminal_status (now : Int)
    (outcome : String → Except String String) (companies : List String)
    (h : companies ≠ []) :
    ((bulkJobRun now outcome companies).job.status = "completed"
        ↔ ∃ q ∈ companies, (outcome q).isOk = true) ∧
      ((bulkJobRun now outcome companies).job.status = "failed"
        ↔ ∀ q ∈ companies, (outcome q).isOk = false) := by
  obtain ⟨h1, -, -, -, -, -, -, -, -⟩ :=
    processBulk_spec now outcome companies
      (createProcessingJob now companies.length) rfl rfl
  simp only [bulkJobRun]
  rw [h1]
  by_cases hc : 0 < companies.countP (fun q => (outcome q).isOk)
  · rw [if_pos hc]
    obtain ⟨q, hq, hq2⟩ := List.countP_pos.mp hc
    exact ⟨⟨fun _ => ⟨q, hq, hq2⟩, fun _ => rfl⟩,
      ⟨fun hs => absurd hs (by decide),
        fun hall => absurd (hall q hq) (by simp [hq2])⟩⟩
  · rw [if_neg hc]
    have hz : companies.countP (fun q => (outcome q).isOk) = 0 := by omega
    refine ⟨⟨fun hs => absurd hs (by decide), ?_⟩,
      ⟨fun _ q hq => ?_, fun _ => rfl⟩⟩
    · rintro ⟨q, hq, hq2⟩
      exact absurd (List.countP_pos.mpr ⟨q, hq, hq2⟩) hc
    · exact Bool.eq_false_iff.mpr (List.countP_eq_zero.mp hz q hq)

/-- C1 witness: the terminal-status theorem at the singleton list
["11111111"] with an always-succeeding item oracle. -/
theorem bulkRun_terminal_status_witness :
    (["11111111"] : List String) ≠ [] ∧
      (((bulkJobRun 0 (fun q => Except.ok q) ["11111111"]).job.status
            = "completed"
          ↔ ∃ q ∈ ["11111111"],
              ((fun q => (Except.ok q : Except String String)) q).isOk
                = true) ∧
        ((bulkJobRun 0 (fun q => Except.ok q) ["11111111"]).job.status
            = "failed"
          ↔ ∀ q ∈ ["11111111"],
              ((fun q => (Except.ok q : Except String String)) q).isOk
                = false)) :=
  ⟨by simp,
    bulkRun_terminal_status 0 (fun q => Except.ok q) ["11111111"] (by simp)⟩

/-- C2: for every bulk run over a non-empty identifier list (the bulk
endpoint's schema requires at least one), `totalItems` as recorded at job
creation equals the input list's length, every persisted state satisfies
`processedItems + failedItems ≤ totalItems`, and the completed job
satisfies `processedItems + failedItems = totalItems`. -/
theorem bulkRun_progress_bounds (now : Int)
    (outcome : String → Except String String) (companies : List String)
    (h : companies ≠ []) :
    (createProcessingJob now companies.length).totalItems
        = companies.length ∧
      (∀ j ∈ (bulkJobRun now outcome companies).persisted,
        j.processedItems + j.failedItems ≤ j.totalItems) ∧
      (bulkJobRun now outcome companies).job.processedItems
          + (bulkJobRun now outcome companies).job.failedItems
        = (bulkJobRun now outcome companies).job.totalItems := by
  obtain ⟨-, h2, h3, h4, -, -, -, -, h9⟩ :=
    processBulk_spec now outcome companies
      (createProcessingJob now companies.length) rfl rfl
  have hne : companies.length ≠ 0 := by
    simpa using h
  have htot : (createProcessingJob now companies.length).totalItems
      = companies.length := by
    simp [createProcessingJob, hne]
  simp only [bulkJobRun]
  refine ⟨htot, ?_, ?_⟩
  · intro j hj
    obtain ⟨hb, hjt⟩ := h9 j hj
    rw [hjt, htot]
    exact hb
  · rw [h2, h3, h4, htot]
    simpa using
      (List.length_eq_countP_add_countP
        (fun q => (outcome q).isOk) companies).symm

/-- C2 witness: the progress-bound theorem at the two-item list with one
success and one failure. -/
theorem bulkRun_progress_bounds_witness :
    (["11111111", "bad"] : List String) ≠ [] ∧
      ((createProcessingJob 0 (["11111111", "bad"] : List String).length).totalItems
          = (["11111111", "bad"] : List String).length ∧
        (∀ j ∈ (bulkJobRun 0
            (fun q => if q = "bad" then Except.error "Company not found"
              else Except.ok q) ["11111111", "bad"]).persisted,
          j.processedItems + j.failedItems ≤ j.totalItems) ∧
        (bulkJobRun 0
            (fun q => if q = "bad" then Except.error "Company not found"
              else Except.ok q) ["11111111", "bad"]).job.processedItems
            + (bulkJobRun 0
            (fun q => if q = "bad" then Except.error "Company not found"
              else Except.ok q) ["11111111", "bad"]).job.failedItems
          = (bulkJobRun 0
            (fun q => if q = "bad" then Except.error "Company not found"
              else Except.ok q) ["11111111", "bad"]).job.totalItems) :=
  ⟨by simp,
    bulkRun_progress_bounds 0
      (fun q => if q = "bad" then Except.error "Company not found"
        else Except.ok q) ["11111111", "bad"] (by simp)⟩

/-- C3: in every bulk run each failed item contributes exactly one
error-log entry carrying that item's identifier and the error message, in
input order; the failed counter matches the number of failures; and the
run always reaches its terminal persist (the completion timestamp is
written for every item-outcome oracle, including all-failing ones), so no
per-item error propagates out of the bulk processing function. -/
theorem bulkRun_error_isolation (now : Int)
    (outcome : String → Except String String) (companies : List String) :
    (bulkJobRun now outcome companies).job.errorLog
        = some (expectedErrors outcome companies) ∧
      (bulkJobRun now outcome companies).job.failedItems
        = companies.countP (fun q => !(outcome q).isOk) ∧
      (bulkJobRun now outcome companies).job.completedAt = some now := by
  obtain ⟨-, -, h3, -, h5, h6, -, -, -⟩ :=
    processBulk_spec now outcome companies
      (createProcessingJob now companies.length) rfl rfl
  exact ⟨h5, h3, h6⟩

/-- C8: along every processor-driven run the persisted status sequence,
starting from the created record, is pending, then processing for the
initial update and each of the n per-item updates, then exactly one
terminal status — monotone, with no transition out of a terminal state —
and `completedAt` is unset on every persisted state except the last one,
where it is assigned (exactly once, on the first transition into a
terminal state). -/
theorem bulkRun_status_lifecycle (now : Int)
    (outcome : String → Except String String) (companies : List String) :
    ((createProcessingJob now companies.length)
          :: (bulkJobRun now outcome companies).persisted).map
        ProcessingJob.status
      = "pending" :: (List.replicate (companies.length + 1) "processing"
          ++ [if 0 < companies.countP (fun q => (outcome q).isOk)
              then "completed" else "failed"]) ∧
    ((createProcessingJob now companies.length)
          :: (bulkJobRun now outcome companies).persisted).map
        ProcessingJob.completedAt
      = none :: (List.replicate (companies.length + 1) (none : Option Int)
          ++ [some now]) := by
  obtain ⟨-, -, -, -, -, -, h7, h8, -⟩ :=
    processBulk_spec now outcome companies
      (createProcessingJob now companies.length) rfl rfl
  simp only [bulkJobRun, List.map_cons]
  rw [h7, h8]
  exact ⟨rfl, rfl⟩

/-- Helper: a request against an empty cache fetches from the network,
counts one external call and stores the payload under the request's
cache key at the current clock. -/
theorem makeRequest_empty (net : String → RawCompany) (now : Int)
    (ep : String) :
    makeRequest net now ⟨[], 0⟩ ep
      = (net ep, ⟨[(getCacheKey ep, now, net ep)], 1⟩) := by
  simp [makeRequest, cacheLookup, cacheSet]

/-- Helper: a request whose key sits in the cache with a timestamp inside
the expiry window returns the cached payload and leaves the state — cache
and external-call counter — untouched. -/
theorem makeRequest_hit (net : String → RawCompany) (now ts : Int)
    (d : RawCompany) (ep : String) (calls : Nat)
    (h : now - ts < cacheExpiry) :
    makeRequest net now ⟨[(getCacheKey ep, ts, d)], calls⟩ ep
      = (d, ⟨[(getCacheKey ep, ts, d)], calls⟩) := by
  simp [makeRequest, cacheLookup, h]

/-- C5 (amended): a `getDetails` call immediately followed by an identical
call within the cache-expiry window issues zero additional external calls
and returns the cached payload re-validated at the second call's clock —
equal to the first result except for the clock annotations (retrieval
timestamp and age), and byte-identical exactly when the two calls observe
the same clock reading. -/
theorem getDetails_cache_roundTrip (net : String → RawCompany)
    (parseDate : String → Option Int) (t₁ t₂ : Int) (num : String)
    (hwin : t₂ - t₁ < cacheExpiry) :
    ((getCompanyDetails net parseDate t₂
        (getCompanyDetails net parseDate t₁ initCHState num).2
        num).2.externalCalls
      = (getCompanyDetails net parseDate t₁
          initCHState num).2.externalCalls) ∧
    (getCompanyDetails net parseDate t₂
        (getCompanyDetails net parseDate t₁ initCHState num).2 num).1
      = validateAndEnhanceCompanyData parseDate t₂
          (net ("/company/" ++ num)) ∧
    (getCompanyDetails net parseDate t₁ initCHState num).1
      = validateAndEnhanceCompanyData parseDate t₁
          (net ("/company/" ++ num)) ∧
    (t₂ = t₁ →
      (getCompanyDetails net parseDate t₂
          (getCompanyDetails net parseDate t₁ initCHState num).2 num).1
        = (getCompanyDetails net parseDate t₁ initCHState num).1) := by
  have hfirst : getCompanyDetails net parseDate t₁ initCHState num
      = (validateAndEnhanceCompanyData parseDate t₁
          (net ("/company/" ++ num)),
        ⟨[(getCacheKey ("/company/" ++ num), t₁,
            net ("/company/" ++ num))], 1⟩) := by
    unfold getCompanyDetails initCHState
    rw [makeRequest_empty]
  have hsecond : getCompanyDetails net parseDate t₂
      (getCompanyDetails net parseDate t₁ initCHState num).2 num
      = (validateAndEnhanceCompanyData parseDate t₂
          (net ("/company/" ++ num)),
        ⟨[(getCacheKey ("/company/" ++ num), t₁,
            net ("/company/" ++ num))], 1⟩) := by
    rw [hfirst]
    unfold getCompanyDetails
    rw [makeRequest_hit net t₂ t₁ (net ("/company/" ++ num))
      ("/company/" ++ num) 1 hwin]
  refine ⟨?_, ?_, ?_, ?_⟩
  · rw [hsecond, hfirst]
  · rw [hsecond]
  · rw [hfirst]
  · intro ht
    rw [hsecond, hfirst, ht]

/-- C5 witness: the amended cache-round-trip theorem at the concrete
company number "11111111", a constant network oracle and both calls at
clock 0 (where the two results coincide). -/
theorem getDetails_cache_roundTrip_witness :
    ((0 : Int) - 0 < cacheExpiry) ∧
      (((getCompanyDetails
          (fun _ => ⟨some "ACME LTD", some "11111111", some "active", none⟩)
          (fun _ => none) 0
          (getCompanyDetails
            (fun _ => ⟨some "ACME LTD", some "11111111", some "active", none⟩)
            (fun _ => none) 0 initCHState "11111111").2
          "11111111").2.externalCalls
        = (getCompanyDetails
            (fun _ => ⟨some "ACME LTD", some "11111111", some "active", none⟩)
            (fun _ => none) 0 initCHState "11111111").2.externalCalls) ∧
      (getCompanyDetails
          (fun _ => ⟨some "ACME LTD", some "11111111", some "active", none⟩)
          (fun _ => none) 0
          (getCompanyDetails
            (fun _ => ⟨some "ACME LTD", some "11111111", some "active", none⟩)
            (fun _ => none) 0 initCHState "11111111").2 "11111111").1
        = validateAndEnhanceCompanyData (fun _ => none) 0
            ((fun _ =>
              (⟨some "ACME LTD", some "11111111", some "active", none⟩
                : RawCompany)) ("/company/" ++ "11111111")) ∧
      (getCompanyDetails
          (fun _ => ⟨some "ACME LTD", some "11111111", some "active", none⟩)
          (fun _ => none) 0 initCHState "11111111").1
        = validateAndEnhanceCompanyData (fun _ => none) 0
            ((fun _ =>
              (⟨some "ACME LTD", some "11111111", some "active", none⟩
                : RawCompany)) ("/company/" ++ "11111111")) ∧
      ((0 : Int) = 0 →
        (getCompanyDetails
            (fun _ => ⟨some "ACME LTD", some "11111111", some "active", none⟩)
            (fun _ => none) 0
            (getCompanyDetails
              (fun _ => ⟨some "ACME LTD", some "11111111", some "active", none⟩)
              (fun _ => none) 0 initCHState "11111111").2 "11111111").1
          = (getCompanyDetails
              (fun _ => ⟨some "ACME LTD", some "11111111", some "active", none⟩)
              (fun _ => none) 0 initCHState "11111111").1)) :=
  ⟨by decide,
    getDetails_cache_roundTrip
      (fun _ => ⟨some "ACME LTD", some "11111111", some "active", none⟩)
      (fun _ => none) 0 0 "11111111" (by decide)⟩

/-- C5 counterexample: with the clock advancing between the two calls
(first at clock 0, second at clock 1, well within the expiry window), the
cache hit issues no additional external call, yet the second result is not
byte-identical to the first — the retrieval timestamp is re-stamped at the
second call's clock. -/
theorem getDetails_second_call_differs :
    ((getCompanyDetails
        (fun _ => ⟨some "ACME LTD", some "11111111", some "active", none⟩)
        (fun _ => none) 1
        (getCompanyDetails
          (fun _ => ⟨some "ACME LTD", some "11111111", some "active", none⟩)
          (fun _ => none) 0 initCHState "11111111").2
        "11111111").2.externalCalls
      = (getCompanyDetails
          (fun _ => ⟨some "ACME LTD", some "11111111", some "active", none⟩)
          (fun _ => none) 0 initCHState "11111111").2.externalCalls) ∧
    (getCompanyDetails
        (fun _ => ⟨some "ACME LTD", some "11111111", some "active", none⟩)
        (fun _ => none) 1
        (getCompanyDetails
          (fun _ => ⟨some "ACME LTD", some "11111111", some "active", none⟩)
          (fun _ => none) 0 initCHState "11111111").2 "11111111").1
      ≠ (getCompanyDetails
          (fun _ => ⟨some "ACME LTD", some "11111111", some "active", none⟩)
          (fun _ => none) 0 initCHState "11111111").1 := by
  decide

/-- C9: when the mandatory fields are truthy, `getDetails`'s validation
succeeds; a present and parseable incorporation date yields the computed
age in years, and a present but unparseable date yields the indeterminate
age while the call still succeeds (no error is raised). -/
theorem validate_age_computation (parseDate : String → Option Int)
    (now : Int) (data : RawCompany)
    (h1 : falsyStr data.company_name = false)
    (h2 : falsyStr data.company_number = false)
    (h3 : falsyStr data.company_status = false) :
    ∃ r, validateAndEnhanceCompanyData parseDate now data = Except.ok r ∧
      ∀ s, data.date_of_creation = some s →
        (parseDate s = none → r.age_years = some none) ∧
        ∀ t, parseDate s = some t →
          r.age_years = some (some (((now : ℚ) - (t : ℚ)) / msPerYear)) := by
  refine ⟨{ raw := data
            data_retrieved_at := now
            status_interpretation :=
              statusInterpretation (data.company_status.getD "")
            age_years :=
              match data.date_of_creation with
              | none => none
              | some s =>
                some (match parseDate s with
                  | some t => some (((now : ℚ) - (t : ℚ)) / msPerYear)
                  | none => none) }, ?_, ?_⟩
  · unfold validateAndEnhanceCompanyData
    rw [h1, h2, h3]
    simp
  · intro s hs
    refine ⟨fun hp => ?_, fun t hp => ?_⟩
    · simp only [hs, hp]
    · simp only [hs, hp]

/-- C9 witness: the age theorem at a concrete payload whose incorporation
date "not-a-date" the (everywhere-failing) date parser cannot parse — the
call succeeds and the age is the indeterminate value. -/
theorem validate_age_computation_witness :
    falsyStr (some "ACME LTD") = false ∧
      falsyStr (some "11111111") = false ∧
      falsyStr (some "active") = false ∧
      ∃ r, validateAndEnhanceCompanyData (fun _ => none) 0
            ⟨some "ACME LTD", some "11111111", some "active",
              some "not-a-date"⟩
          = Except.ok r ∧
        ∀ s, (⟨some "ACME LTD", some "11111111", some "active",
            some "not-a-date"⟩ : RawCompany).date_of_creation = some s →
          (((fun _ => (none : Option Int)) s = none) →
              r.age_years = some none) ∧
          ∀ t, (fun _ => (none : Option Int)) s = some t →
            r.age_years = some (some ((((0 : Int) : ℚ) - (t : ℚ)) / msPerYear)) :=
  ⟨rfl, rfl, rfl,
    validate_age_computation (fun _ => none) 0
      ⟨some "ACME LTD", some "11111111", some "active", some "not-a-date"⟩
      rfl rfl rfl⟩

/-- Helper for C10: JavaScript falsiness of an optional string field is
absence or the empty string. -/
theorem falsyStr_iff (v : Option String) :
    falsyStr v = true ↔ v = none ∨ v = some "" := by
  cases v <;> simp [falsyStr]

/-- C10: validation tests truthiness rather than presence — `getDetails`
fails with the missing-mandatory-field error precisely when
`company_name`, `company_number` or `company_status` is absent or present
with a falsy value (the empty string). -/
theorem validate_missing_field_iff (parseDate : String → Option Int)
    (now : Int) (data : RawCompany) :
    (∃ f, validateAndEnhanceCompanyData parseDate now data
        = Except.error ("Missing required field: " ++ f))
      ↔ ((data.company_name = none ∨ data.company_name = some "")
        ∨ (data.company_number = none ∨ data.company_number = some "")
        ∨ (data.company_status = none ∨ data.company_status = some "")) := by
  rw [← falsyStr_iff, ← falsyStr_iff, ← falsyStr_iff]
  by_cases hn : falsyStr data.company_name = true
  · simp only [validateAndEnhanceCompanyData, hn, if_true]
    exact iff_of_true ⟨"company_name", by decide⟩ (Or.inl trivial)
  · have hn2 : falsyStr data.company_name = false := by
      simpa using hn
    by_cases hm : falsyStr data.company_number = true
    · simp only [validateAndEnhanceCompanyData, hn2, Bool.false_eq_true,
        if_false, hm, if_true]
      exact iff_of_true ⟨"company_number", by decide⟩ (Or.inr (Or.inl trivial))
    · have hm2 : falsyStr data.company_number = false := by
        simpa using hm
      by_cases hs : falsyStr data.company_status = true
      · simp only [validateAndEnhanceCompanyData, hn2, hm2,
          Bool.false_eq_true, if_false, hs, if_true]
        exact iff_of_true ⟨"company_status", by decide⟩ (Or.inr (Or.inr trivial))
      · have hs2 : falsyStr data.company_status = false := by
          simpa using hs
        simp [validateAndEnhanceCompanyData, hn2, hm2, hs2]
